import Mathlib

/-!
Shallow embedding of the correlation-bridge core of the MCP relay server
(`src/ProjectMCP_Relay/main.py`, with the event queue of
`src/ProjectMCP_Relay/agent_server.py` and the registry helper of
`src/ProjectMCP_Relay/tool_manager.py`).

The Python process is single-threaded and cooperatively scheduled: every
mutation of the shared dictionaries (`pending_requests`, `active_sessions`)
and of the global `local_agent_ws` happens in a block with no `await` inside
it (or under `ws_lock`), so each such block is embedded as one atomic Lean
function from state to state.  JSON values are embedded as an inductive
`Json` (arrays and objects as cons chains, so that equality is derivable);
Python dicts keyed by JSON values are embedded as association lists with
dict-style lookup/insert/erase.
-/

namespace MCPRelay

/-- JSON values as parsed by `json.loads` / produced by `json.dumps`.
Arrays and objects are encoded as cons chains (`arrCons`/`objCons`);
`Json.mkObj`/`Json.mkArr` build them from lists. -/
inductive Json where
  | null
  | bool (b : Bool)
  | num (n : Int)
  | str (s : String)
  | arrNil
  | arrCons (head tail : Json)
  | objNil
  | objCons (key : String) (value rest : Json)
deriving DecidableEq

/-- Build a JSON object from a field list. -/
def Json.mkObj (fields : List (String × Json)) : Json :=
  fields.foldr (fun p acc => .objCons p.1 p.2 acc) .objNil

/-- Build a JSON array from an element list. -/
def Json.mkArr (elems : List Json) : Json :=
  elems.foldr .arrCons .arrNil

/-- Python `body.get(key, default)`: the value under `key` in a dict, or
`default` when the key is missing (and on a non-dict, where the Python
attribute error never occurs on the values these functions receive). -/
def Json.getD (j : Json) (key : String) (d : Json) : Json :=
  match j with
  | .objCons k v rest => if k = key then v else rest.getD key d
  | _ => d

/-- Python `body.get(key)`: `None` (`Json.null`) when the key is missing. -/
def Json.get (j : Json) (key : String) : Json :=
  j.getD key .null

/-- Python `str(x)` as interpolated by f-strings, for the scalar values the
code actually formats; containers are abbreviated (no claim depends on
their rendering). -/
def Json.pyStr : Json → String
  | .null => "None"
  | .bool true => "True"
  | .bool false => "False"
  | .num n => toString n
  | .str s => s
  | _ => "..."

/-- Dict lookup: first (hence, for a dict, the only) binding of key `k`. -/
def dlookup {α β : Type} [DecidableEq α] (k : α) : List (α × β) → Option β
  | [] => none
  | (a, b) :: l => if a = k then some b else dlookup k l

/-- Dict deletion (`del d[k]` / key absence): drop every binding of `k`. -/
def derase {α β : Type} [DecidableEq α] (k : α) (l : List (α × β)) : List (α × β) :=
  l.filter (fun p => p.1 ≠ k)

/-- Dict write `d[k] = v`: `k` becomes bound to `v`, all other keys keep
their bindings. -/
def dinsert {α β : Type} [DecidableEq α] (k : α) (v : β) (l : List (α × β)) :
    List (α × β) :=
  (k, v) :: derase k l

/-- An `asyncio.Future` as used by `handle_rpc`/`ws_local`: created pending,
resolved at most once by `set_result`. -/
inductive FutState where
  | pending
  | resolved (payload : Json)
deriving DecidableEq

/-- Observable actions of `ws_local`'s connection-replacement block (under
`ws_lock`): `await local_agent_ws.close()`, then `local_agent_ws = websocket`.
Recorded in order so that "closed before installed" is statable. -/
inductive ConnEvent where
  | closed (conn : Nat)
  | installed (conn : Nat)
deriving DecidableEq

/-- The module-level mutable state of `main.py`.  Connections (websocket
objects) are identified by `Nat`; futures live in a store `futures` indexed
by `Nat` (`nextFut` is the allocator), so that a caller can keep awaiting a
future after `pending_requests` drops or overwrites its entry, exactly as in
the Python code.  `sent` logs every `send_text` with the connection it was
written to; `connEvents` logs close/install on the connection slot. -/
structure RelayState where
  pending_requests : List (Json × Nat)
  futures : List (Nat × FutState)
  nextFut : Nat
  local_agent_ws : Option Nat
  sent : List (Nat × Json)
  connEvents : List ConnEvent
  active_sessions : List String
deriving DecidableEq

/-- The state at process start: empty tables, no agent connected. -/
def initialState : RelayState :=
  { pending_requests := [], futures := [], nextFut := 0,
    local_agent_ws := none, sent := [], connEvents := [],
    active_sessions := [] }

def SERVER_NAME : String := "mcp-relay-server"
def SERVER_VERSION : String := "1.0.0"
def PROTOCOL_VERSION : String := "2025-03-26"

/-- A JSON-RPC error response as built inline by `handle_rpc`. -/
def errorResponse (rpcId : Json) (code : Int) (message : String) : Json :=
  .mkObj [("jsonrpc", .str "2.0"), ("id", rpcId),
          ("error", .mkObj [("code", .num code), ("message", .str message)])]

/-- `handle_rpc`'s `initialize` reply (main.py lines 166-175). -/
def initializeResponse (rpcId : Json) : Json :=
  .mkObj [("jsonrpc", .str "2.0"), ("id", rpcId),
          ("result", .mkObj
            [("protocolVersion", .str PROTOCOL_VERSION),
             ("serverInfo", .mkObj [("name", .str SERVER_NAME),
                                    ("version", .str SERVER_VERSION)]),
             ("capabilities", .mkObj [("tools", .objNil)])])]

/-- One advertised tool entry of the `tools/list` reply. -/
def toolEntry (name description : String) (schema : Json) : Json :=
  .mkObj [("name", .str name), ("description", .str description),
          ("inputSchema", schema)]

/-- `handle_rpc`'s `tools/list` reply (main.py lines 178-220). -/
def toolsListResponse (rpcId : Json) : Json :=
  .mkObj [("jsonrpc", .str "2.0"), ("id", rpcId),
          ("result", .mkObj [("tools", .mkArr
            [toolEntry "unity_command" "Send command to Unity"
              (.mkObj [("type", .str "object"),
                       ("properties", .mkObj
                         [("action", .mkObj [("type", .str "string")]),
                          ("parameters", .mkObj [("type", .str "object")])]),
                       ("required", .mkArr [.str "action"])]),
             toolEntry "python_exec" "Execute Python code"
              (.mkObj [("type", .str "object"),
                       ("properties", .mkObj
                         [("code", .mkObj [("type", .str "string")])]),
                       ("required", .mkArr [.str "code"])]),
             toolEntry "ask_local_ai" "Local LLM Query"
              (.mkObj [("type", .str "object"),
                       ("properties", .mkObj
                         [("prompt", .mkObj [("type", .str "string")])]),
                       ("required", .mkArr [.str "prompt"])])])])]

/-- The names of the statically advertised tools.  `tools_registry.TOOLS`
is filled by scanning a `tools/` directory that the repository does not
contain, so the static registry the server actually advertises is the
hard-coded list in `main.py`'s metadata and `tools/list` replies. -/
def TOOLS_names : List String := ["unity_command", "python_exec", "ask_local_ai"]

/-- `tool_manager.tool_exists`: membership in the static registry. -/
def tool_exists (name : String) : Bool := TOOLS_names.contains name

/-- Result of the synchronous part of `handle_rpc` (everything up to the
`await asyncio.wait_for`): either an immediate reply, or a forwarded call
now awaiting future `fut` under correlation id `rpcId`. -/
inductive StartResult where
  | reply (response : Json)
  | forwarded (rpcId : Json) (fut : Nat)
deriving DecidableEq

/-- `handle_rpc` (main.py lines 158-260) up to its suspension point.  The
`tools/call` branch runs under `ws_lock` with no other `await` than the
send, so it is one atomic step: check the connection, create a future,
write `pending_requests[rpc_id] = future` (a plain dict write — it
overwrites any existing binding), and send the frame on the current
connection.  There is no lookup of `tool_name` in any registry and no
check that `rpc_id` is present or fresh. -/
def handle_rpc_start (body : Json) (s : RelayState) : StartResult × RelayState :=
  let rpc_id := body.get "id"
  let method := body.get "method"
  let params := body.getD "params" .objNil
  if method = .str "initialize" then
    (.reply (initializeResponse rpc_id), s)
  else if method = .str "tools/list" then
    (.reply (toolsListResponse rpc_id), s)
  else if method = .str "tools/call" then
    let tool_name := params.get "name"
    let arguments := params.getD "arguments" .objNil
    match s.local_agent_ws with
    | none =>
        (.reply (errorResponse rpc_id (-32000) "Local Agent not connected"), s)
    | some conn =>
        let fut := s.nextFut
        (.forwarded rpc_id fut,
         { s with
             futures := dinsert fut .pending s.futures,
             nextFut := fut + 1,
             pending_requests := dinsert rpc_id fut s.pending_requests,
             sent := s.sent ++ [(conn, .mkObj [("id", rpc_id),
                                               ("tool", tool_name),
                                               ("args", arguments)])] })
  else
    (.reply (errorResponse rpc_id (-32601)
      ("Unknown method: " ++ method.pyStr)), s)

/-- The payload future `fut` was resolved with, if any. -/
def futResolved (s : RelayState) (fut : Nat) : Option Json :=
  match dlookup fut s.futures with
  | some (.resolved p) => some p
  | _ => none

/-- How `handle_rpc`'s await phase ends: a normal return, or an uncaught
exception escaping `handle_rpc` — `post_mcp`'s catch-all `except` then
answers the caller with a 500 `{"error": ...}` response instead of a
JSON-RPC reply (main.py lines 286-290). -/
inductive AwaitResult where
  | ok (response : Json)
  | raised
deriving DecidableEq

/-- `handle_rpc`'s `await asyncio.wait_for(future, timeout=30.0)` together
with its `except asyncio.TimeoutError` handler (main.py lines 245-254),
evaluated at the instant the wait completes: if the future has been
resolved, its payload is returned as the call's result; otherwise the
deadline elapsed and the handler runs `del pending_requests[rpc_id]` —
which, when `rpc_id` is no longer in the dict (its binding was overwritten
by a duplicate register and then removed by a reply), raises `KeyError`;
the `except asyncio.TimeoutError` clause does not catch it, so the
exception escapes `handle_rpc` and the caller gets `post_mcp`'s 500. -/
def await_result (rpcId : Json) (fut : Nat) (s : RelayState) :
    AwaitResult × RelayState :=
  match futResolved s fut with
  | some payload => (.ok payload, s)
  | none =>
      match dlookup rpcId s.pending_requests with
      | some _ =>
          (.ok (errorResponse rpcId (-32000) "Local Agent timeout"),
           { s with pending_requests := derase rpcId s.pending_requests })
      | none => (.raised, s)

/-- One iteration of `ws_local`'s receive loop (main.py lines 316-323) on a
parsed inbound frame `msg`: if `msg.get("id")` has a pending entry, resolve
that entry's future with the whole frame and delete the entry; otherwise do
nothing (the frame is dropped). -/
def ws_handle_frame (msg : Json) (s : RelayState) : RelayState :=
  match dlookup (msg.get "id") s.pending_requests with
  | some fut =>
      { s with
          futures := dinsert fut (.resolved msg) s.futures,
          pending_requests := derase (msg.get "id") s.pending_requests }
  | none => s

/-- `ws_local`'s connection-replacement block (main.py lines 308-311), run
under `ws_lock` when connection `conn` arrives: if a handle is installed,
close it, then install `conn` as current. -/
def ws_connect (conn : Nat) (s : RelayState) : RelayState :=
  match s.local_agent_ws with
  | some old =>
      { s with local_agent_ws := some conn,
               connEvents := s.connEvents ++ [.closed old, .installed conn] }
  | none =>
      { s with local_agent_ws := some conn,
               connEvents := s.connEvents ++ [.installed conn] }

/-- `ws_local`'s `finally: local_agent_ws = None` (main.py line 329), run
when a connection's receive loop terminates.  It is unconditional: it does
not compare the terminating handle with the currently installed one. -/
def ws_disconnect_cleanup (s : RelayState) : RelayState :=
  { s with local_agent_ws := none }

/-- `delete_mcp` (main.py lines 292-297): read the session header (absent →
`None`, and Python's truthiness also treats `""` as absent), delete the
session if present in `active_sessions`, and return HTTP 200 always. -/
def delete_mcp (session_id : Option String) (s : RelayState) : Nat × RelayState :=
  match session_id with
  | some sid =>
      if sid ≠ "" ∧ sid ∈ s.active_sessions then
        (200, { s with active_sessions := s.active_sessions.filter (· ≠ sid) })
      else (200, s)
  | none => (200, s)

/-- `agent_server.message_queue.put` (agent_server.py line 30 creates
`asyncio.Queue()` with no `maxsize`; `ws_listener` line 81 awaits `put`):
an unbounded FIFO append — `put` never blocks and nothing is evicted. -/
def message_queue_put (q : List Json) (item : Json) : List Json :=
  q ++ [item]

/-- The frame `handle_rpc` serializes onto the downstream connection for a
`tools/call` body (main.py lines 239-243). -/
def forwardFrame (body : Json) : Json :=
  .mkObj [("id", body.get "id"),
          ("tool", (body.getD "params" .objNil).get "name"),
          ("args", (body.getD "params" .objNil).getD "arguments" .objNil)]

/-! ### Concrete inputs used by counterexamples and witnesses -/

/-- A well-formed `tools/call` envelope with id `"a1"`. -/
def callBody : Json :=
  .mkObj [("id", .str "a1"), ("method", .str "tools/call"),
          ("params", .mkObj [("name", .str "python_exec"),
                             ("arguments", .mkObj [("code", .str "1")])])]

/-- The state after the first downstream connection (id 0) is installed. -/
def connectedState : RelayState := ws_connect 0 initialState

/-- The state after `callBody` has been forwarded on connection 0:
`pending_requests` maps `"a1"` to future 0, which is still pending. -/
def forwardedState : RelayState := (handle_rpc_start callBody connectedState).2

/-- A `tools/call` envelope naming an operation absent from the registry. -/
def unknownToolBody : Json :=
  .mkObj [("id", .str "b1"), ("method", .str "tools/call"),
          ("params", .mkObj [("name", .str "no_such_tool")])]

/-- A `tools/call` envelope with no `id` field at all. -/
def noIdBody : Json :=
  .mkObj [("method", .str "tools/call"),
          ("params", .mkObj [("name", .str "python_exec")])]

/-- The state after connection 0 was installed and then superseded by
connection 1. -/
def twoConnState : RelayState := ws_connect 1 (ws_connect 0 initialState)

/-- A downstream reply frame correlated with id `"a1"`. -/
def replyMsg : Json := .mkObj [("id", .str "a1"), ("result", .str "x")]

/-- A downstream reply frame for id `"a1"` arriving after its timeout. -/
def lateReplyMsg : Json := .mkObj [("id", .str "a1"), ("result", .str "late")]

/-- The state after `"a1"` was registered twice (the duplicate register
rebound the entry from future 0 to future 1) and a downstream reply then
resolved future 1, deleting the entry: future 0 is still unresolved but
`"a1"` is no longer in `pending_requests`, so the first call's timeout
handler will hit `del` on a missing key. -/
def overwrittenTimeoutState : RelayState :=
  ws_handle_frame replyMsg (handle_rpc_start callBody forwardedState).2

/-- The queue obtained by pushing 101 events into an empty event queue. -/
def pushedQueue : List Json :=
  ((List.range 101).map (fun i => Json.num i)).foldl message_queue_put []

/-- A state holding one active session, `"abc"`. -/
def sessionState : RelayState :=
  { initialState with active_sessions := ["abc"] }

/-! ### Dictionary lemmas -/

theorem derase_cons {α β : Type} [DecidableEq α] (k : α) (p : α × β)
    (l : List (α × β)) :
    derase k (p :: l) = if p.1 = k then derase k l else p :: derase k l := by
  by_cases h : p.1 = k <;> simp [derase, List.filter_cons, h]

theorem dlookup_derase_self {α β : Type} [DecidableEq α] (k : α)
    (l : List (α × β)) : dlookup k (derase k l) = none := by
  induction l with
  | nil => rfl
  | cons p l ih =>
      rw [derase_cons]
      by_cases h : p.1 = k
      · simpa [h] using ih
      · simpa [dlookup, h] using ih

theorem dlookup_derase_ne {α β : Type} [DecidableEq α] {a k : α}
    (h : a ≠ k) (l : List (α × β)) : dlookup a (derase k l) = dlookup a l := by
  induction l with
  | nil => rfl
  | cons p l ih =>
      rw [derase_cons]
      by_cases hk : p.1 = k
      · have hpa : p.1 ≠ a := by rw [hk]; exact fun e => h e.symm
        rw [if_pos hk, ih]
        simp [dlookup, hpa]
      · rw [if_neg hk]
        by_cases ha : p.1 = a <;> simp [dlookup, ha, ih]

theorem dlookup_dinsert_self {α β : Type} [DecidableEq α] (k : α) (v : β)
    (l : List (α × β)) : dlookup k (dinsert k v l) = some v := by
  simp [dinsert, dlookup]

theorem dlookup_dinsert_ne {α β : Type} [DecidableEq α] {a k : α}
    (h : a ≠ k) (v : β) (l : List (α × β)) :
    dlookup a (dinsert k v l) = dlookup a l := by
  have : k ≠ a := fun e => h e.symm
  simp [dinsert, dlookup, this, dlookup_derase_ne h]

/-- `handle_rpc`'s `tools/call` branch with a live connection: the call is
always forwarded — a future is allocated, the id's binding in
`pending_requests` is (over)written, and the frame is sent on the current
connection.  No registry lookup and no id check guards this branch. -/
theorem handle_rpc_start_forwards (body : Json) (s : RelayState) (conn : Nat)
    (hm : body.get "method" = .str "tools/call")
    (hc : s.local_agent_ws = some conn) :
    handle_rpc_start body s =
      (.forwarded (body.get "id") s.nextFut,
       { s with
           futures := dinsert s.nextFut .pending s.futures,
           nextFut := s.nextFut + 1,
           pending_requests := dinsert (body.get "id") s.nextFut s.pending_requests,
           sent := s.sent ++ [(conn, forwardFrame body)] }) := by
  unfold handle_rpc_start forwardFrame
  simp [hm, hc]

/-- C6: a forwardable (`tools/call`) envelope submitted while no downstream
connection is current is answered immediately with
`{id, error: {code: -32000, message: "Local Agent not connected"}}`, and the
state — in particular `pending_requests` — is left unchanged, so no
pending-call entry is registered for the id. -/
theorem no_agent_immediate_error (body : Json) (s : RelayState)
    (hm : body.get "method" = .str "tools/call")
    (hc : s.local_agent_ws = none) :
    handle_rpc_start body s =
      (.reply (errorResponse (body.get "id") (-32000)
        "Local Agent not connected"), s) := by
  unfold handle_rpc_start
  simp [hm, hc]

/-- C6 witness: the spec's scenario, id `"a1"`, no downstream connected. -/
theorem no_agent_immediate_error_w :
    handle_rpc_start callBody initialState =
      (.reply (errorResponse (.str "a1") (-32000)
        "Local Agent not connected"), initialState) :=
  no_agent_immediate_error callBody initialState (by decide) rfl

/-- C2 counterexample: the call for `"a1"` awaiting future 0 reaches its
deadline with that future never resolved, yet the caller does not receive
the Timeout failure: `"a1"` was re-registered (rebinding the entry to
future 1) and a downstream reply resolved future 1 and removed the entry,
so the timeout handler's `del pending_requests["a1"]` raises `KeyError`
and the caller gets `post_mcp`'s 500 instead. -/
theorem timeout_entry_absent_raises_cex :
    futResolved overwrittenTimeoutState 0 = none ∧
    dlookup (Json.str "a1") overwrittenTimeoutState.pending_requests = none ∧
    (await_result (.str "a1") 0 overwrittenTimeoutState).1 = .raised ∧
    (await_result (.str "a1") 0 overwrittenTimeoutState).1 ≠
      .ok (errorResponse (.str "a1") (-32000) "Local Agent timeout") := by
  decide

/-- C2 amended: when the deadline elapses with the call's future unresolved
and its id still registered (always the case when the id was not reused),
the caller receives the Timeout failure, the table afterwards no longer
contains the id, and a downstream frame for that id arriving after the
timeout leaves the state completely unchanged — delivered to no caller;
but when the entry was already removed (reachable after a duplicate-id
overwrite whose entry a reply resolved), the handler's `del` raises
`KeyError` and the caller receives the catch-all 500, not a Timeout
failure. -/
theorem timeout_cleanup_late_reply_dropped (rpcId : Json) (fut f : Nat)
    (s : RelayState) (msg : Json)
    (hunres : futResolved s fut = none)
    (hentry : dlookup rpcId s.pending_requests = some f)
    (hid : msg.get "id" = rpcId) :
    (await_result rpcId fut s).1 =
        .ok (errorResponse rpcId (-32000) "Local Agent timeout") ∧
    dlookup rpcId (await_result rpcId fut s).2.pending_requests = none ∧
    ws_handle_frame msg (await_result rpcId fut s).2 =
        (await_result rpcId fut s).2 ∧
    (∀ t : RelayState, futResolved t fut = none →
      dlookup rpcId t.pending_requests = none →
      (await_result rpcId fut t).1 = .raised) := by
  unfold await_result
  rw [hunres, hentry]
  refine ⟨rfl, dlookup_derase_self .., ?_, ?_⟩
  · unfold ws_handle_frame
    rw [hid]
    simp [dlookup_derase_self]
  · intro t htf ht
    rw [htf, ht]

/-- C2 amended witness: the forwarded call `"a1"` times out with its entry
present (future 0 pending), the late reply frame is dropped; and in the
overwritten-then-resolved state the same timeout raises instead. -/
theorem timeout_cleanup_late_reply_dropped_w :
    (await_result (.str "a1") 0 forwardedState).1 =
        .ok (errorResponse (.str "a1") (-32000) "Local Agent timeout") ∧
    dlookup (Json.str "a1")
        (await_result (.str "a1") 0 forwardedState).2.pending_requests = none ∧
    ws_handle_frame lateReplyMsg (await_result (.str "a1") 0 forwardedState).2 =
        (await_result (.str "a1") 0 forwardedState).2 ∧
    (await_result (.str "a1") 0 overwrittenTimeoutState).1 = .raised := by
  have h := timeout_cleanup_late_reply_dropped (.str "a1") 0 0 forwardedState
    lateReplyMsg (by decide) (by decide) (by decide)
  exact ⟨h.1, h.2.1, h.2.2.1,
    h.2.2.2 overwrittenTimeoutState (by decide) (by decide)⟩

/-- C8: an inbound downstream frame whose id has a pending entry resolves
exactly that entry's future with the frame, removes the entry, leaves every
other pending entry and every other future untouched, and the waiting
caller's `await` then returns that frame as the call's result. -/
theorem resolve_exact_waiter (msg : Json) (s : RelayState) (fut : Nat)
    (k : Json) (f : Nat)
    (hreg : dlookup (msg.get "id") s.pending_requests = some fut)
    (hk : k ≠ msg.get "id") (hf : f ≠ fut) :
    futResolved (ws_handle_frame msg s) fut = some msg ∧
    dlookup (msg.get "id") (ws_handle_frame msg s).pending_requests = none ∧
    dlookup k (ws_handle_frame msg s).pending_requests =
        dlookup k s.pending_requests ∧
    futResolved (ws_handle_frame msg s) f = futResolved s f ∧
    await_result (msg.get "id") fut (ws_handle_frame msg s) =
        (.ok msg, ws_handle_frame msg s) := by
  unfold ws_handle_frame
  rw [hreg]
  have h1 : futResolved
      { s with
          futures := dinsert fut (.resolved msg) s.futures,
          pending_requests := derase (msg.get "id") s.pending_requests } fut
        = some msg := by
    unfold futResolved
    rw [dlookup_dinsert_self]
  refine ⟨h1, dlookup_derase_self .., dlookup_derase_ne hk .., ?_, ?_⟩
  · unfold futResolved
    rw [dlookup_dinsert_ne hf]
  · unfold await_result
    rw [h1]

/-- C8 witness: the spec's echo scenario — the reply frame for `"a1"`
resolves the registered waiter (future 0), entry `"zz"` and future 1 are
untouched, and the caller receives the frame. -/
theorem resolve_exact_waiter_w :
    futResolved (ws_handle_frame replyMsg forwardedState) 0 = some replyMsg ∧
    dlookup (Json.str "a1")
        (ws_handle_frame replyMsg forwardedState).pending_requests = none ∧
    dlookup (Json.str "zz")
        (ws_handle_frame replyMsg forwardedState).pending_requests =
      dlookup (Json.str "zz") forwardedState.pending_requests ∧
    futResolved (ws_handle_frame replyMsg forwardedState) 1 =
      futResolved forwardedState 1 ∧
    await_result (Json.str "a1") 0 (ws_handle_frame replyMsg forwardedState) =
      (.ok replyMsg, ws_handle_frame replyMsg forwardedState) := by
  have h := resolve_exact_waiter replyMsg forwardedState 0 (.str "zz") 1
    (by decide) (by decide) (by decide)
  exact h

/-- C1 counterexample: with `"a1"` already registered (bound to future 0 and
unresolved), a second `tools/call` with id `"a1"` does not fail — it is
forwarded again — and the pending entry is rebound from future 0 to the
freshly created future 1, so the existing entry is overwritten, not left
untouched. -/
theorem duplicate_register_overwrites_cex :
    dlookup (Json.str "a1") forwardedState.pending_requests = some 0 ∧
    futResolved forwardedState 0 = none ∧
    (handle_rpc_start callBody forwardedState).1 = .forwarded (.str "a1") 1 ∧
    dlookup (Json.str "a1")
        (handle_rpc_start callBody forwardedState).2.pending_requests = some 1 := by
  decide

/-- C1 amended: re-registering an id that is already pending never fails —
`pending_requests[rpc_id] = future` is a plain dict write — and it silently
rebinds the id to the newly created future, so the existing pending entry
is overwritten rather than left untouched (no `DuplicateId` error exists in
the code). -/
theorem duplicate_register_overwrites (body : Json) (s : RelayState)
    (conn fut₀ : Nat)
    (hm : body.get "method" = .str "tools/call")
    (hc : s.local_agent_ws = some conn)
    (hreg : dlookup (body.get "id") s.pending_requests = some fut₀)
    (hfresh : fut₀ ≠ s.nextFut) :
    (handle_rpc_start body s).1 = .forwarded (body.get "id") s.nextFut ∧
    dlookup (body.get "id")
        (handle_rpc_start body s).2.pending_requests = some s.nextFut ∧
    dlookup (body.get "id")
        (handle_rpc_start body s).2.pending_requests ≠ some fut₀ := by
  rw [handle_rpc_start_forwards body s conn hm hc]
  refine ⟨rfl, dlookup_dinsert_self .., ?_⟩
  rw [dlookup_dinsert_self]
  intro hcontra
  exact hfresh (Option.some_injective _ hcontra).symm

/-- C1 amended witness: the concrete duplicate registration of `"a1"`. -/
theorem duplicate_register_overwrites_w :
    (handle_rpc_start callBody forwardedState).1 = .forwarded (callBody.get "id") 1 ∧
    dlookup (callBody.get "id")
        (handle_rpc_start callBody forwardedState).2.pending_requests = some 1 ∧
    dlookup (callBody.get "id")
        (handle_rpc_start callBody forwardedState).2.pending_requests ≠ some 0 :=
  duplicate_register_overwrites callBody forwardedState 0 0
    (by decide) (by decide) (by decide) (by decide)

/-- C3 counterexample: connection 0 is superseded by connection 1, then the
terminating receive loop of the old connection runs its
`finally: local_agent_ws = None` cleanup.  The cleanup is not a no-op: the
current handle (connection 1) is erased. -/
theorem stale_cleanup_erases_newer_cex :
    twoConnState.local_agent_ws = some 1 ∧
    (ws_disconnect_cleanup twoConnState).local_agent_ws = none ∧
    ws_disconnect_cleanup twoConnState ≠ twoConnState := by
  decide

/-- C3 amended: the teardown cleanup of a superseded connection handle is
unconditional — it never compares the terminating handle with the installed
one — so it is not a no-op: it clears the slot, erasing the newer current
connection (current becomes none instead of the newly installed handle). -/
theorem stale_cleanup_erases_newer (s : RelayState) (oldConn newConn : Nat)
    (hcur : s.local_agent_ws = some oldConn) :
    (ws_connect newConn s).local_agent_ws = some newConn ∧
    (ws_disconnect_cleanup (ws_connect newConn s)).local_agent_ws = none ∧
    ws_disconnect_cleanup (ws_connect newConn s) ≠ ws_connect newConn s := by
  have hnew : (ws_connect newConn s).local_agent_ws = some newConn := by
    unfold ws_connect
    rw [hcur]
  refine ⟨hnew, rfl, ?_⟩
  intro h
  have := congrArg RelayState.local_agent_ws h
  rw [hnew] at this
  exact Option.noConfusion this

/-- C3 amended witness: the concrete supersession of connection 0 by 1. -/
theorem stale_cleanup_erases_newer_w :
    (ws_connect 1 connectedState).local_agent_ws = some 1 ∧
    (ws_disconnect_cleanup (ws_connect 1 connectedState)).local_agent_ws = none ∧
    ws_disconnect_cleanup (ws_connect 1 connectedState) ≠
      ws_connect 1 connectedState :=
  stale_cleanup_erases_newer connectedState 0 1 (by decide)

/-- C4: installing connection `conn` while `old` is current closes the old
handle strictly before installing the new one (the connection-slot event
log gains `closed old` then `installed conn`), makes the new handle
current, and a forwardable call dispatched afterwards writes its frame to
`conn`, never to the superseded `old` — `handle_rpc` is the only writer and
it sends on the currently installed handle under the same lock. -/
theorem install_closes_old_then_serves_new (s : RelayState) (old conn : Nat)
    (body : Json)
    (hcur : s.local_agent_ws = some old) (hne : old ≠ conn)
    (hm : body.get "method" = .str "tools/call") :
    (ws_connect conn s).connEvents =
        s.connEvents ++ [.closed old, .installed conn] ∧
    (ws_connect conn s).local_agent_ws = some conn ∧
    (handle_rpc_start body (ws_connect conn s)).2.sent =
        (ws_connect conn s).sent ++ [(conn, forwardFrame body)] ∧
    conn ≠ old := by
  have hnew : (ws_connect conn s).local_agent_ws = some conn := by
    unfold ws_connect
    rw [hcur]
  refine ⟨?_, hnew, ?_, fun e => hne e.symm⟩
  · unfold ws_connect
    rw [hcur]
  · rw [handle_rpc_start_forwards body (ws_connect conn s) conn hm hnew]

/-- C4 witness: connection 1 supersedes connection 0 and the next forwarded
call is written to connection 1. -/
theorem install_closes_old_then_serves_new_w :
    (ws_connect 1 connectedState).connEvents =
        connectedState.connEvents ++ [.closed 0, .installed 1] ∧
    (ws_connect 1 connectedState).local_agent_ws = some 1 ∧
    (handle_rpc_start callBody (ws_connect 1 connectedState)).2.sent =
        (ws_connect 1 connectedState).sent ++ [(1, forwardFrame callBody)] ∧
    (1 : Nat) ≠ 0 :=
  install_closes_old_then_serves_new connectedState 0 1 callBody
    (by decide) (by decide) (by decide)

/-- C5 counterexample: `"no_such_tool"` is not in the static registry, yet
the `tools/call` naming it is not rejected with any failure — it is
forwarded: a frame is written to the downstream connection and a
pending-call entry is registered for its id. -/
theorem unknown_tool_forwarded_cex :
    tool_exists "no_such_tool" = false ∧
    (handle_rpc_start unknownToolBody connectedState).1 =
        .forwarded (.str "b1") 0 ∧
    (handle_rpc_start unknownToolBody connectedState).2.sent =
        [(0, Json.mkObj [("id", .str "b1"), ("tool", .str "no_such_tool"),
                         ("args", .objNil)])] ∧
    dlookup (Json.str "b1")
        (handle_rpc_start unknownToolBody connectedState).2.pending_requests =
      some 0 := by
  decide

/-- C5 amended: the dispatcher never consults the tool registry —
`tool_manager.tool_exists` is not called on the `tools/call` path — so a
call whose operation name is not in the static registry is forwarded
downstream and registered in the pending table exactly like a known one; no
`UnknownOperation` failure exists for tool names. -/
theorem unknown_tool_forwarded (body : Json) (s : RelayState) (conn : Nat)
    (name : String)
    (hm : body.get "method" = .str "tools/call")
    (hc : s.local_agent_ws = some conn)
    (hname : (body.getD "params" .objNil).get "name" = .str name)
    (hunknown : tool_exists name = false) :
    (handle_rpc_start body s).1 = .forwarded (body.get "id") s.nextFut ∧
    (handle_rpc_start body s).2.sent = s.sent ++ [(conn, forwardFrame body)] ∧
    dlookup (body.get "id")
        (handle_rpc_start body s).2.pending_requests = some s.nextFut := by
  rw [handle_rpc_start_forwards body s conn hm hc]
  exact ⟨rfl, rfl, dlookup_dinsert_self ..⟩

/-- C5 amended witness: the unregistered name `"no_such_tool"`. -/
theorem unknown_tool_forwarded_w :
    (handle_rpc_start unknownToolBody connectedState).1 =
        .forwarded (unknownToolBody.get "id") 0 ∧
    (handle_rpc_start unknownToolBody connectedState).2.sent =
        connectedState.sent ++ [(0, forwardFrame unknownToolBody)] ∧
    dlookup (unknownToolBody.get "id")
        (handle_rpc_start unknownToolBody connectedState).2.pending_requests =
      some 0 :=
  unknown_tool_forwarded unknownToolBody connectedState 0 "no_such_tool"
    (by decide) (by decide) (by decide) (by decide)

/-- C9 counterexample: a `tools/call` envelope with no `id` field is not
answered with any malformed-message failure — it is forwarded downstream
with a `null` id and registered in the pending table under `null`. -/
theorem missing_id_forwarded_cex :
    noIdBody.get "id" = .null ∧
    (handle_rpc_start noIdBody connectedState).1 = .forwarded .null 0 ∧
    (handle_rpc_start noIdBody connectedState).2.sent =
        [(0, Json.mkObj [("id", .null), ("tool", .str "python_exec"),
                         ("args", .objNil)])] ∧
    dlookup Json.null
        (handle_rpc_start noIdBody connectedState).2.pending_requests =
      some 0 := by
  decide

/-- C9 amended: `handle_rpc` never checks for a missing id — `body.get("id")`
silently yields `None` — so an id-less forwardable call is forwarded
downstream with a `null` correlation id and registered under `null`; only a
body that fails to parse at all is answered locally (by `post_mcp`'s
catch-all 500) without reaching the dispatcher. -/
theorem missing_id_forwarded (body : Json) (s : RelayState) (conn : Nat)
    (hm : body.get "method" = .str "tools/call")
    (hid : body.get "id" = .null)
    (hc : s.local_agent_ws = some conn) :
    (handle_rpc_start body s).1 = .forwarded .null s.nextFut ∧
    (handle_rpc_start body s).2.sent = s.sent ++ [(conn, forwardFrame body)] ∧
    dlookup Json.null
        (handle_rpc_start body s).2.pending_requests = some s.nextFut := by
  rw [handle_rpc_start_forwards body s conn hm hc, hid]
  exact ⟨rfl, rfl, dlookup_dinsert_self ..⟩

/-- C9 amended witness: the concrete id-less `tools/call`. -/
theorem missing_id_forwarded_w :
    (handle_rpc_start noIdBody connectedState).1 = .forwarded .null 0 ∧
    (handle_rpc_start noIdBody connectedState).2.sent =
        connectedState.sent ++ [(0, forwardFrame noIdBody)] ∧
    dlookup Json.null
        (handle_rpc_start noIdBody connectedState).2.pending_requests =
      some 0 :=
  missing_id_forwarded noIdBody connectedState 0
    (by decide) (by decide) (by decide)

set_option maxRecDepth 4000 in
/-- C7 counterexample: with the spec's example capacity N = 100, pushing 101
events into the empty queue leaves 101 queued items — the bound is
exceeded — and the oldest item (the first pushed) is still at the front:
nothing was evicted. -/
theorem queue_unbounded_cex :
    pushedQueue.length = 101 ∧
    ¬ pushedQueue.length ≤ 100 ∧
    pushedQueue.head? = some (.num 0) := by
  decide

/-- C7 amended: the event queue is created with no capacity
(`asyncio.Queue()` with no `maxsize`), so `put` is an unbounded FIFO
append: any sequence of pushes retains every item, old and new, in order —
nothing is ever evicted. -/
theorem queue_unbounded_append (q items : List Json) :
    items.foldl message_queue_put q = q ++ items := by
  induction items generalizing q with
  | nil => simp
  | cons x xs ih => simp [message_queue_put, ih]

/-- `delete_mcp` with a falsy or unknown session id is a 200 no-op. -/
theorem delete_mcp_absent (x : String) (s : RelayState)
    (h : ¬ (x ≠ "" ∧ x ∈ s.active_sessions)) :
    delete_mcp (some x) s = (200, s) := by
  simp only [delete_mcp]
  rw [if_neg h]

/-- `delete_mcp` with a present session id removes it and returns 200. -/
theorem delete_mcp_present (x : String) (s : RelayState)
    (h : x ≠ "" ∧ x ∈ s.active_sessions) :
    delete_mcp (some x) s =
      (200, { s with active_sessions := s.active_sessions.filter (· ≠ x) }) := by
  simp only [delete_mcp]
  rw [if_pos h]

/-- C10: session teardown always returns HTTP 200; with a missing or
unknown session id it leaves the session table unchanged; and deleting the
same session twice equals deleting it once. -/
theorem delete_mcp_idempotent (sid : Option String) (s : RelayState) :
    (delete_mcp sid s).1 = 200 ∧
    delete_mcp none s = (200, s) ∧
    (∀ x, sid = some x → x ∉ s.active_sessions → delete_mcp sid s = (200, s)) ∧
    delete_mcp sid ((delete_mcp sid s).2) = delete_mcp sid s := by
  refine ⟨?_, rfl, ?_, ?_⟩
  · cases sid with
    | none => rfl
    | some x =>
        by_cases hcond : x ≠ "" ∧ x ∈ s.active_sessions
        · rw [delete_mcp_present x s hcond]
        · rw [delete_mcp_absent x s hcond]
  · intro x hx hmem
    cases hx
    exact delete_mcp_absent x s fun hcond => hmem hcond.2
  · cases sid with
    | none => rfl
    | some x =>
        by_cases hcond : x ≠ "" ∧ x ∈ s.active_sessions
        · rw [delete_mcp_present x s hcond]
          exact delete_mcp_absent x _ (by
            intro hcontra
            have h2 := List.mem_filter.mp hcontra.2
            simp at h2)
        · rw [delete_mcp_absent x s hcond]
          exact delete_mcp_absent x _ hcond

/-- C10 witness: deleting the known session `"abc"` returns 200, deleting
the unknown session `"zz"` is a 200 no-op, and deleting `"abc"` twice
equals deleting it once. -/
theorem delete_mcp_idempotent_w :
    (delete_mcp (some "abc") sessionState).1 = 200 ∧
    delete_mcp (some "zz") sessionState = (200, sessionState) ∧
    delete_mcp (some "abc") ((delete_mcp (some "abc") sessionState).2) =
      delete_mcp (some "abc") sessionState :=
  ⟨(delete_mcp_idempotent (some "abc") sessionState).1,
   (delete_mcp_idempotent (some "zz") sessionState).2.2.1 "zz" rfl (by decide),
   (delete_mcp_idempotent (some "abc") sessionState).2.2.2⟩

end MCPRelay
